import Mathlib

/-!
Shallow embedding of the runtime core of the `probers` crate family, as produced
by the code generators in `probers-codegen/src/proc_macros.rs` and
`probers-macros/src/lib.rs`, together with the provider scanner of
`probers-codegen/src/provider.rs` and the deferred-thunk argument wrapper of
`probers-core/src/argtypes/custom.rs`.

Conventions of the embedding:
* `failure::Error` values are represented by their message strings.
* A `OnceCell<T>` static is an `Option T` field of an explicit state record;
  `get_or_init` is single-threaded run-once semantics (the claims settled here
  quantify over calls "from one thread").
* Shared `'static` references to immutable cell contents are represented by the
  values themselves.
* Side effects that the claims count (backend construction calls, thunk
  invocations, argument evaluations, probe submissions) are made explicit as
  counters threaded through the operations.
-/

namespace Probers

/-- Error values (`failure::Error`), represented by their message string. -/
abbrev Err := String

/-- Mirrors `Result::ok()` / `Except` to `Option` on the success side, as used
by `imp.as_ref().ok()` in the generated `get`. -/
def exceptOk {β : Type} : Except Err β → Option β
  | Except.ok v => some v
  | Except.error _ => none

/-- Mirrors `Result::err()`, as used by `fallible.as_ref().err()` in the
generated `get_init_error`. -/
def exceptErr {β : Type} : Except Err β → Option Err
  | Except.ok _ => none
  | Except.error e => some e

/-- The platform tracing backend (`SystemTracer`): for a fixed provider
declaration, `SystemTracer::define_provider` has one deterministic outcome for
the process lifetime, either a built `SystemProvider` (payload type `α`) or an
error.  The generated `generate_define_provider_call` token stream evaluates to
exactly this call. -/
structure Backend (α : Type) where
  defineProvider : Except Err α

/-- The three `OnceCell` statics generated by `generate_impl_mod`
(`proc_macros.rs` lines 309-311 / `lib.rs` lines 231-233), plus a counter of
how many times `SystemTracer::define_provider` has actually been invoked.
`α` is the `SystemProvider` payload, `σ` the provider-probes struct
(`#struct_type_name`). -/
structure InitState (α : Type) (σ : Type) where
  /-- `static #instance_var_name: OnceCell<Fallible<SystemProvider>>` -/
  providerCell : Option (Except Err α)
  /-- `static #struct_var_name: OnceCell<Fallible<#struct_type_name>>` -/
  implCell : Option (Except Err σ)
  /-- `static IMPL_OPT: OnceCell<Option<&'static #struct_type_name>>` -/
  implOptCell : Option (Option σ)
  /-- number of invocations of `SystemTracer::define_provider` so far -/
  defineCalls : Nat

/-- The pristine state of the three statics before any access: all cells empty,
the backend construction routine never invoked. -/
def initState {α σ : Type} : InitState α σ :=
  { providerCell := none, implCell := none, implOptCell := none, defineCalls := 0 }

/-- Single-threaded semantics of `OnceCell::get_or_init`: if the cell is full,
return the cached value and leave the state alone; otherwise run the
initializer (which may touch other cells and counters), store its result, and
return it. -/
def cellGetOrInit {α σ γ : Type} (read : InitState α σ → Option γ)
    (write : InitState α σ → γ → InitState α σ)
    (init : InitState α σ → γ × InitState α σ)
    (s : InitState α σ) : γ × InitState α σ :=
  match read s with
  | some v => (v, s)
  | none =>
    let r := init s
    (r.1, write r.2 r.1)

/-- The innermost `get_or_init` in the generated `get`:
`#instance_var_name.get_or_init(|| #define_provider_call)`.  Running the
closure performs the one call to `SystemTracer::define_provider`, which the
`defineCalls` counter records. -/
def defineProviderOnce {α σ : Type} (b : Backend α) (s : InitState α σ) :
    Except Err α × InitState α σ :=
  cellGetOrInit (fun st => st.providerCell)
    (fun st v => { st with providerCell := some v })
    (fun st => (b.defineProvider, { st with defineCalls := st.defineCalls + 1 }))
    s

/-- The closure passed to `#struct_var_name.get_or_init`: resolve the
`SystemProvider` cell, then either propagate the failure through
`bail!("Provider initialization failed: {}", e)` or build the provider-probes
struct from the provider (`mk` stands for the generated
`#struct_type_name { #(#struct_initializers,)* }` construction). -/
def implCellInit {α σ : Type} (b : Backend α) (mk : α → σ) (s : InitState α σ) :
    Except Err σ × InitState α σ :=
  let pr := defineProviderOnce b s
  match pr.1 with
  | Except.error e => (Except.error ("Provider initialization failed: " ++ e), pr.2)
  | Except.ok p => (Except.ok (mk p), pr.2)

/-- `#struct_var_name.get_or_init(|| ...)` with the closure above. -/
def implCellGetOrInit {α σ : Type} (b : Backend α) (mk : α → σ) (s : InitState α σ) :
    Except Err σ × InitState α σ :=
  cellGetOrInit (fun st => st.implCell)
    (fun st v => { st with implCell := some v })
    (implCellInit b mk)
    s

/-- The generated `get()` accessor (`proc_macros.rs` lines 321-361 / `lib.rs`
lines 236-277): `IMPL_OPT.get_or_init` over the nested struct-cell resolution,
converting the inner `&Fallible<..>` into an `Option<&T>` via `as_ref().ok()`,
and finally copying the cached `Option<&T>` out. -/
def get {α σ : Type} (b : Backend α) (mk : α → σ) (s : InitState α σ) :
    Option σ × InitState α σ :=
  cellGetOrInit (fun st => st.implOptCell)
    (fun st v => { st with implOptCell := some v })
    (fun st =>
      let r := implCellGetOrInit b mk st
      (exceptOk r.1, r.2))
    s

/-- The generated `get_init_error()` (`proc_macros.rs` lines 314-318 / `lib.rs`
lines 279-283): `#struct_var_name.get().and_then(|fallible| fallible.as_ref().err())`. -/
def get_init_error {α σ : Type} (s : InitState α σ) : Option Err :=
  s.implCell.bind exceptErr

/-- The same call viewed as a state transformer.  The body of the Rust
function only performs `OnceCell::get(&self)`, a non-mutating read, so the
resulting state is the input state unchanged — which is what this definition
records and what the frame theorem for claim C7 asserts. -/
def get_init_error_run {α σ : Type} (s : InitState α σ) : Option Err × InitState α σ :=
  (get_init_error s, s)

/-- The terminal content of the struct cell once initialization has been
attempted: the error message wrapped by `bail!`, or the struct built from the
provider. -/
def terminalImpl {α σ : Type} (b : Backend α) (mk : α → σ) : Except Err σ :=
  match b.defineProvider with
  | Except.error e => Except.error ("Provider initialization failed: " ++ e)
  | Except.ok p => Except.ok (mk p)

/-- The state of the three statics after the first `get()` call has resolved:
every cell filled with its terminal content, the backend construction routine
invoked exactly once. -/
def readyState {α σ : Type} (b : Backend α) (mk : α → σ) : InitState α σ :=
  { providerCell := some b.defineProvider
  , implCell := some (terminalImpl b mk)
  , implOptCell := some (exceptOk (terminalImpl b mk))
  , defineCalls := 1 }

/-- The state after `n` successive `get()` calls from one thread, starting
from the pristine state. -/
def runGets {α σ : Type} (b : Backend α) (mk : α → σ) : Nat → InitState α σ
  | 0 => initState
  | n + 1 => (get b mk (runGets b mk n)).2

/-- A probe handle as the generated fire site sees it: `is_enabled()` samples
the live external enablement flag.  We model a single fire attempt, so the
sampled flag is a fixed boolean. -/
structure ProbeHandle where
  enabled : Bool

/-- Observable effects of executing one generated probe fire site:
how many times the probe argument expressions were evaluated, how many
submissions reached the platform backend, and any error value delivered to the
caller (the generated block has no error channel, so this stays `none`). -/
structure FireEffects where
  argEvals : Nat
  fires : Nat
  callerError : Option Err
deriving DecidableEq

/-- The empty effect: the block did nothing observable. -/
def noFx : FireEffects := { argEvals := 0, fires := 0, callerError := none }

/-- Sequencing of effects within a single block. -/
def FireEffects.andThen (a b : FireEffects) : FireEffects :=
  { argEvals := a.argEvals + b.argEvals
  , fires := a.fires + b.fires
  , callerError := a.callerError.orElse (fun _ => b.callerError) }

/-- Evaluating the argument tuple `#fire_args` of the fire call.  In Rust call
semantics the tuple expression is evaluated exactly once, at the call to
`fire`, which sits inside both guards of the expansion. -/
def evalArgs : FireEffects := { argEvals := 1, fires := 0, callerError := none }

/-- Modelled from the spec: the runtime `ProviderProbe::fire` operation of
`probers-core` is not among the sources (only the generated call to it is);
per §4.2 it marshals the arguments and submits them to the backend with
"Side effects: none beyond submission to the backend; never panics; never
returns an error to the caller".  We model it as one submission, no caller
error. -/
def fireProbe : FireEffects := { argEvals := 0, fires := 1, callerError := none }

/-- The block produced by `probe_impl` (`proc_macros.rs` lines 79-87) for
`probe!(MyProvider::myprobe(args...))`:

`{ if let Some(__probers_probe) = MyProvider::get_myprobe_probe() {
     if __probers_probe.is_enabled() { __probers_probe.fire(#fire_args); } } }`

`g` is the value the generated per-probe accessor returned in this attempt. -/
def probeExpansion (g : Option ProbeHandle) : FireEffects :=
  match g with
  | some pr => if pr.enabled then evalArgs.andThen fireProbe else noFx
  | none => noFx

/-- A deferred computation (`&Fn() -> T`), represented by the value it
computes; invocations of the closure are counted externally. -/
structure FnThunk (T : Type) where
  value : T

/-- Invoking the thunk (`self.0()` in the source): yields its value and bumps
the invocation counter. -/
def FnThunk.invoke {T : Type} (t : FnThunk T) (calls : Nat) : T × Nat :=
  (t.value, calls + 1)

/-- `FuncProbeArgTypeWrapper` (`custom.rs` line 11): a tuple struct holding
the borrowed thunk. -/
structure FuncProbeArgTypeWrapper (T : Type) where
  thunk : FnThunk T

/-- `ProbeArgWrapper::new` for the thunk wrapper (`custom.rs` lines 21-23):
`FuncProbeArgTypeWrapper(arg)`.  The body is a bare constructor application
containing no call of `arg`, so the invocation counter passes through
untouched. -/
def FuncProbeArgTypeWrapper.new {T : Type} (arg : FnThunk T) (calls : Nat) :
    FuncProbeArgTypeWrapper T × Nat :=
  (⟨arg⟩, calls)

/-- `to_c_type` for the thunk wrapper (`custom.rs` lines 25-29):
`let arg = self.0(); let mut wrapped = super::wrap(arg); wrapped.to_c_type()`.
`inner` stands for the composite `wrap(..).to_c_type()` of the underlying type
`T`, which per §4.1 is a total, side-effect-free conversion to the wire type
`C`. -/
def FuncProbeArgTypeWrapper.to_c_type {T C : Type} (w : FuncProbeArgTypeWrapper T)
    (inner : T → C) (calls : Nat) : C × Nat :=
  let r := w.thunk.invoke calls
  (inner r.1, r.2)

/-- `default_c_value` for the thunk wrapper (`custom.rs` lines 31-33): the
underlying type's default wire value, computed without touching the thunk. -/
def FuncProbeArgTypeWrapper.default_c_value {C : Type} (innerDefault : C) : C :=
  innerDefault

/-- The `Debug` implementation for the thunk wrapper (`custom.rs` lines
36-45): `let arg = self.0(); arg.fmt(f)` — it invokes the stored thunk and
formats the result.  `render` stands for the `Debug` formatting of `T`. -/
def FuncProbeArgTypeWrapper.fmtDebug {T : Type} (w : FuncProbeArgTypeWrapper T)
    (render : T → String) (calls : Nat) : String × Nat :=
  let r := w.thunk.invoke calls
  (render r.1, r.2)

/-- One generated fire site whose single argument is a thunk, with the thunk
invocation counter threaded through.  The guard structure is the `probe_impl`
expansion (`proc_macros.rs` lines 79-87).  Modelled from the spec: the body of
`ProviderProbe::fire` is not among the sources; per §4.2 it marshals each
argument via the Argument Marshaller, i.e. wraps it (`new`) and converts it
(`to_c_type`) once, then submits the wire tuple. -/
def fireSiteThunk {T C : Type} (g : Option ProbeHandle) (t : FnThunk T)
    (inner : T → C) (calls : Nat) : Nat :=
  match g with
  | some pr =>
    if pr.enabled then
      let wrapped := FuncProbeArgTypeWrapper.new t calls
      (wrapped.1.to_c_type inner wrapped.2).2
    else calls
  | none => calls

/-- One item inside a trait declaration, as the probe scanner distinguishes
them (`provider.rs` lines 147-158): a method declaration (`M` abstracts
`syn::TraitItemMethod`), or anything else. -/
inductive ScanTraitItem (M : Type) where
  | method (m : M)
  | other

/-- A trait declaration as inspected by `find_providers` / `find_probes`
(`provider.rs`): its identifier, whether its generics carry type or lifetime
parameters (line 138), the last path segment of each of its attributes
(`attr.path.segments.iter().last()`, line 111; `none` for an empty path), and
its items in order. -/
structure ScanItemTrait (M : Type) where
  ident : String
  hasTypeParams : Bool
  hasLifetimes : Bool
  attrs : List (Option String)
  items : List (ScanTraitItem M)

/-- A provider specification as assembled by
`ProviderSpecification::from_trait` (`provider.rs` lines 44-62); the fields
not relevant to scanning (hash, token stream, the retained trait) are omitted.
`P` abstracts `ProbeSpecification`. -/
structure ScanProviderSpec (P : Type) where
  name : String
  probes : List P

/-- The item loop of `find_probes` (`provider.rs` lines 146-159): each method
is turned into a probe specification by `ProbeSpecification::from_method`
(abstracted as the parameter `fromMethod`, its module not being among the
sources — the theorems hold for every such function), any other item aborts
with an error, and the first failure is returned. -/
def findProbesGo {M P : Type} (fromMethod : M → Except Err P) :
    List (ScanTraitItem M) → Except Err (List P)
  | [] => Except.ok []
  | ScanTraitItem.method m :: rest =>
    match fromMethod m with
    | Except.error e => Except.error e
    | Except.ok s =>
      match findProbesGo fromMethod rest with
      | Except.error e => Except.error e
      | Except.ok ss => Except.ok (s :: ss)
  | ScanTraitItem.other :: _ =>
    Except.error ("Probe traits must consist entirely of methods, no other contents")

/-- `find_probes` (`provider.rs` lines 137-162): reject traits with type or
lifetime parameters, then translate the items. -/
def find_probes {M P : Type} (fromMethod : M → Except Err P) (item : ScanItemTrait M) :
    Except Err (List P) :=
  if item.hasTypeParams || item.hasLifetimes then
    Except.error ("Probe traits must not take any lifetime or type parameters")
  else findProbesGo fromMethod item.items

/-- `ProviderSpecification::from_trait` (`provider.rs` lines 44-62): run
`find_probes`, and on success assemble the specification whose name is the
snake-cased trait identifier (`snake` abstracts `heck`'s `to_snake_case`). -/
def from_trait {M P : Type} (snake : String → String) (fromMethod : M → Except Err P)
    (item : ScanItemTrait M) : Except Err (ScanProviderSpec P) :=
  match find_probes fromMethod item with
  | Except.error e => Except.error e
  | Except.ok probes => Except.ok { name := snake item.ident, probes := probes }

/-- The attribute check of the visitor in `find_providers` (`provider.rs`
lines 109-115): some attribute's last path segment is the identifier
`prober`. -/
def hasProberAttr {M : Type} (item : ScanItemTrait M) : Bool :=
  item.attrs.any (fun a =>
    match a with
    | some ident => ident == "prober"
    | none => false)

/-- `find_providers` (`provider.rs` lines 96-130): visit every trait
declaration of the file in order; for each trait carrying the `prober`
attribute, run `from_trait`, keep the specification when it succeeds
(`if let Ok(provider) = ... { push }`), and silently drop the trait when it
fails — the return type has no error channel at all. -/
def find_providers {M P : Type} (snake : String → String) (fromMethod : M → Except Err P) :
    List (ScanItemTrait M) → List (ScanProviderSpec P)
  | [] => []
  | i :: rest =>
    let tail := find_providers snake fromMethod rest
    if hasProberAttr i then
      match from_trait snake fromMethod i with
      | Except.ok p => p :: tail
      | Except.error _ => tail
    else tail

/-- A concrete backend whose construction succeeds with provider payload 7,
used to evaluate the theorems on concrete inputs. -/
def bOk : Backend Nat := { defineProvider := Except.ok 7 }

/-- A concrete backend whose construction fails, used to evaluate the
failure-path theorems on concrete inputs. -/
def bErr : Backend Nat := { defineProvider := Except.error ("boom") }

/-- The identity struct construction for the concrete instances. -/
def idMk : Nat → Nat := fun p => p

/-- A concrete `from_method` translation that rejects every method, for
evaluating the scanner theorems. -/
def badFromMethod : Unit → Except Err Unit := fun _ => Except.error ("bad method")

/-- A concrete `prober`-attributed trait that is invalid as a provider: it
contains a non-method item, so `find_probes` rejects it. -/
def badTrait : ScanItemTrait Unit :=
  { ident := "MyProbes"
  , hasTypeParams := false
  , hasLifetimes := false
  , attrs := [some ("prober")]
  , items := [ScanTraitItem.other] }

theorem lem_get_cached {α σ : Type} (b : Backend α) (mk : α → σ) (s : InitState α σ)
    (v : Option σ) (h : s.implOptCell = some v) : get b mk s = (v, s) := by
  simp [get, cellGetOrInit, h]

theorem lem_get_initial {α σ : Type} (b : Backend α) (mk : α → σ) :
    get b mk (initState : InitState α σ) = (exceptOk (terminalImpl b mk), readyState b mk) := by
  cases hb : b.defineProvider <;>
    simp [get, cellGetOrInit, implCellGetOrInit, implCellInit, defineProviderOnce,
      initState, readyState, terminalImpl, exceptOk, hb]

theorem lem_runGets_succ {α σ : Type} (b : Backend α) (mk : α → σ) (n : Nat) :
    runGets b mk (n + 1) = readyState b mk := by
  induction n with
  | zero =>
      show (get b mk (runGets b mk 0)).2 = readyState b mk
      rw [show runGets b mk 0 = (initState : InitState α σ) from rfl, lem_get_initial]
  | succ k ih =>
      show (get b mk (runGets b mk (k + 1))).2 = readyState b mk
      rw [ih, lem_get_cached b mk (readyState b mk) (exceptOk (terminalImpl b mk)) rfl]

theorem lem_get_runGets {α σ : Type} (b : Backend α) (mk : α → σ) (n : Nat) :
    (get b mk (runGets b mk n)).1 = exceptOk (terminalImpl b mk) := by
  cases n with
  | zero =>
      rw [show runGets b mk 0 = (initState : InitState α σ) from rfl, lem_get_initial]
  | succ k =>
      rw [lem_runGets_succ, lem_get_cached b mk (readyState b mk) (exceptOk (terminalImpl b mk)) rfl]

/-- Claim C1: in every block produced by the probe! macro expansion, the
probe's argument expressions are evaluated (exactly once) precisely when the
per-probe accessor returned Some (provider reached Ready) and is_enabled()
returned true in that same attempt; under any other condition no argument
expression is evaluated. -/
theorem claim_c1_args_guarded (g : Option ProbeHandle) :
    ((probeExpansion g).argEvals ≠ 0 → ∃ pr, g = some pr ∧ pr.enabled = true) ∧
    (∀ pr, g = some pr → pr.enabled = true → (probeExpansion g).argEvals = 1) ∧
    (∀ pr, g = some pr → pr.enabled = false → (probeExpansion g).argEvals = 0) ∧
    (g = none → (probeExpansion g).argEvals = 0) := by
  cases g with
  | none => simp [probeExpansion, noFx]
  | some pr =>
      cases hpr : pr.enabled <;>
        simp [probeExpansion, noFx, evalArgs, fireProbe, FireEffects.andThen, hpr]

theorem claim_c1_witness :
    (probeExpansion (some { enabled := true })).argEvals = 1 ∧
    (probeExpansion (none : Option ProbeHandle)).argEvals = 0 :=
  ⟨(claim_c1_args_guarded (some { enabled := true })).2.1 { enabled := true } rfl rfl,
   (claim_c1_args_guarded none).2.2.2 rfl⟩

/-- Claim C8: the probe! expansion signals no failure to the caller: its
caller-visible error is always absent, and when the provider is absent or the
probe is disabled the block silently does nothing at all. -/
theorem claim_c8_silent_fire (g : Option ProbeHandle) :
    (probeExpansion g).callerError = none ∧
    (g = none → probeExpansion g = noFx) ∧
    (∀ pr, g = some pr → pr.enabled = false → probeExpansion g = noFx) := by
  cases g with
  | none => simp [probeExpansion, noFx]
  | some pr =>
      cases hpr : pr.enabled <;>
        simp [probeExpansion, noFx, evalArgs, fireProbe, FireEffects.andThen, hpr]

theorem claim_c8_witness :
    (probeExpansion (none : Option ProbeHandle)).callerError = none ∧
    probeExpansion (none : Option ProbeHandle) = noFx :=
  ⟨(claim_c8_silent_fire none).1, (claim_c8_silent_fire none).2.1 rfl⟩

/-- Claim C2: every call to the generated get() accessor yields the terminal
result: Some of the provider-probes struct built from the Ready provider, and
None when construction Failed; the value is identical on every call from the
first resolution onward. -/
theorem claim_c2_get_idempotent {α σ : Type} (b : Backend α) (mk : α → σ) (n : Nat) :
    (get b mk (runGets b mk n)).1 = exceptOk (terminalImpl b mk) ∧
    (∀ p, b.defineProvider = Except.ok p → (get b mk (runGets b mk n)).1 = some (mk p)) ∧
    (∀ e, b.defineProvider = Except.error e → (get b mk (runGets b mk n)).1 = none) := by
  refine ⟨lem_get_runGets b mk n, ?_, ?_⟩
  · intro p hp
    rw [lem_get_runGets]
    simp [terminalImpl, exceptOk, hp]
  · intro e he
    rw [lem_get_runGets]
    simp [terminalImpl, exceptOk, he]

theorem claim_c2_witness : (get bOk idMk (runGets bOk idMk 2)).1 = some 7 :=
  (claim_c2_get_idempotent bOk idMk 2).2.1 7 rfl

/-- Claim C3: across any number of get() calls from one thread, the backend
construction routine SystemTracer::define_provider runs zero times before the
first call and exactly once from the first call onward. -/
theorem claim_c3_define_provider_once {α σ : Type} (b : Backend α) (mk : α → σ) (n : Nat) :
    (runGets b mk n).defineCalls = min n 1 := by
  cases n with
  | zero => rfl
  | succ k =>
      rw [lem_runGets_succ]
      simp [readyState]

/-- Claim C4: after a failed construction, every get() call returns None, every
get_init_error() call returns the same cached error, and the backend
construction routine is never re-invoked. -/
theorem claim_c4_failure_permanent {α σ : Type} (b : Backend α) (mk : α → σ) (e : Err)
    (h : b.defineProvider = Except.error e) (n : Nat) :
    (get b mk (runGets b mk n)).1 = none ∧
    get_init_error (runGets b mk (n + 1)) = some ("Provider initialization failed: " ++ e) ∧
    (runGets b mk (n + 1)).defineCalls = 1 := by
  refine ⟨?_, ?_, ?_⟩
  · rw [lem_get_runGets]
    simp [terminalImpl, exceptOk, h]
  · rw [lem_runGets_succ]
    simp [get_init_error, readyState, terminalImpl, exceptErr, h]
  · rw [lem_runGets_succ]
    rfl

theorem claim_c4_witness :
    (get bErr idMk (runGets bErr idMk 1)).1 = none ∧
    get_init_error (runGets bErr idMk 2) = some ("Provider initialization failed: " ++ "boom") ∧
    (runGets bErr idMk 2).defineCalls = 1 :=
  claim_c4_failure_permanent bErr idMk ("boom") rfl 1

/-- Claim C7: get_init_error() leaves the initialization state untouched (its
body is a non-mutating OnceCell read), and after any number n of prior get()
calls it returns a cached error exactly when initialization has been attempted
(n is at least 1) and failed. -/
theorem claim_c7_read_only_error_probe {α σ : Type} (b : Backend α) (mk : α → σ) (n : Nat) :
    (get_init_error_run (runGets b mk n)).2 = runGets b mk n ∧
    ((∃ e, (get_init_error_run (runGets b mk n)).1 = some e) ↔
      (1 ≤ n ∧ ∃ e, b.defineProvider = Except.error e)) := by
  refine ⟨rfl, ?_⟩
  cases n with
  | zero =>
      simp [get_init_error_run, get_init_error, runGets, initState]
  | succ k =>
      rw [lem_runGets_succ]
      cases hb : b.defineProvider with
      | error e =>
          simp [get_init_error_run, get_init_error, readyState, terminalImpl, exceptErr, hb]
      | ok p =>
          simp [get_init_error_run, get_init_error, readyState, terminalImpl, exceptErr, hb]

theorem claim_c7_witness :
    (get_init_error_run (runGets bErr idMk 1)).2 = runGets bErr idMk 1 ∧
    ((∃ e, (get_init_error_run (runGets bErr idMk 1)).1 = some e) ↔
      (1 ≤ 1 ∧ ∃ e, bErr.defineProvider = Except.error e)) :=
  claim_c7_read_only_error_probe bErr idMk 1

/-- Claim C5: the wrapped thunk is invoked exactly once, inside to_c_type, per
wire conversion; a fire site whose probe is disabled (or whose provider is
absent) leaves the thunk uninvoked, and one fire with an enabled probe invokes
it exactly once. -/
theorem claim_c5_thunk_once_per_fire {T C : Type} (t : FnThunk T) (inner : T → C)
    (w : FuncProbeArgTypeWrapper T) (g : Option ProbeHandle) (calls : Nat) :
    (w.to_c_type inner calls).2 = calls + 1 ∧
    (∀ pr, g = some pr → pr.enabled = true → fireSiteThunk g t inner calls = calls + 1) ∧
    (∀ pr, g = some pr → pr.enabled = false → fireSiteThunk g t inner calls = calls) ∧
    (g = none → fireSiteThunk g t inner calls = calls) := by
  refine ⟨rfl, ?_, ?_, ?_⟩
  · intro pr hg hpr
    subst hg
    simp [fireSiteThunk, hpr, FuncProbeArgTypeWrapper.new, FuncProbeArgTypeWrapper.to_c_type,
      FnThunk.invoke]
  · intro pr hg hpr
    subst hg
    simp [fireSiteThunk, hpr]
  · intro hg
    subst hg
    rfl

theorem claim_c5_witness :
    fireSiteThunk (some { enabled := true }) (⟨5⟩ : FnThunk Nat) (fun x : Nat => x) 0 = 0 + 1 ∧
    fireSiteThunk (some { enabled := false }) (⟨5⟩ : FnThunk Nat) (fun x : Nat => x) 0 = 0 :=
  ⟨(claim_c5_thunk_once_per_fire (⟨5⟩ : FnThunk Nat) (fun x : Nat => x) ⟨⟨5⟩⟩
      (some { enabled := true }) 0).2.1 { enabled := true } rfl rfl,
   (claim_c5_thunk_once_per_fire (⟨5⟩ : FnThunk Nat) (fun x : Nat => x) ⟨⟨5⟩⟩
      (some { enabled := false }) 0).2.2.1 { enabled := false } rfl rfl⟩

/-- Claim C6: constructing the thunk wrapper stores the thunk without invoking
it: the invocation counter is unchanged at wrap time, the stored thunk is the
argument itself, and a later wire conversion of the stored thunk yields the
thunk's value. -/
theorem claim_c6_wrap_defers {T C : Type} (arg : FnThunk T) (inner : T → C) (calls : Nat) :
    (FuncProbeArgTypeWrapper.new arg calls).2 = calls ∧
    (FuncProbeArgTypeWrapper.new arg calls).1.thunk = arg ∧
    ((FuncProbeArgTypeWrapper.new arg calls).1.to_c_type inner calls).1 = inner arg.value :=
  ⟨rfl, rfl, rfl⟩

/-- Claim C9: the Debug implementation of the thunk wrapper invokes the stored
thunk on every fmt call — so the thunk can be evaluated outside the
wire-conversion path, and two fmt calls already evaluate it twice. -/
theorem claim_c9_debug_invokes_thunk {T : Type} (w : FuncProbeArgTypeWrapper T)
    (render : T → String) (calls : Nat) :
    (w.fmtDebug render calls).2 = calls + 1 ∧
    (w.fmtDebug render ((w.fmtDebug render calls).2)).2 = calls + 1 + 1 ∧
    (w.fmtDebug render calls).1 = render w.thunk.value :=
  ⟨rfl, rfl, rfl⟩

/-- Claim C10: find_providers returns exactly the specifications of the
prober-attributed traits that pass validation, in file order, and silently
omits — with no error channel — every prober-attributed trait that is invalid
as a provider. -/
theorem claim_c10_scanner_silent {M P : Type} (snake : String → String)
    (fm : M → Except Err P) (file : List (ScanItemTrait M)) :
    find_providers snake fm file =
      file.filterMap
        (fun i => if hasProberAttr i then exceptOk (from_trait snake fm i) else none) ∧
    (∀ i, hasProberAttr i = true → ∀ e, from_trait snake fm i = Except.error e →
      find_providers snake fm [i] = []) := by
  constructor
  · induction file with
    | nil => rfl
    | cons i rest ih =>
        cases hA : hasProberAttr i with
        | false => simp [find_providers, List.filterMap_cons, hA, ih]
        | true =>
            cases hT : from_trait snake fm i with
            | error e => simp [find_providers, List.filterMap_cons, hA, hT, exceptOk, ih]
            | ok p => simp [find_providers, List.filterMap_cons, hA, hT, exceptOk, ih]
  · intro i hA e hT
    simp [find_providers, hA, hT]

theorem claim_c10_witness : find_providers (fun s => s) badFromMethod [badTrait] = [] :=
  (claim_c10_scanner_silent (fun s => s) badFromMethod [badTrait]).2 badTrait (by decide)
    ("Probe traits must consist entirely of methods, no other contents") rfl

end Probers
